import Mathlib

/-!
Shallow embedding of the fact-checker pipeline core
(`src/factchecker/pipeline/factcheck_pipeline.py`,
`src/factchecker/core/models.py`, `src/factchecker/core/sources_config.py`,
`src/factchecker/logging_config.py`) together with theorems settling the
specification claims about it.

Modelling conventions:
* Python exceptions are values of `PyError` (type name + message); fallible
  code returns `Except PyError α`.
* Confidences are exact rationals (`ℚ`); no claim depends on float rounding.
* Wall-clock values (`processing_time_ms`, `timestamp`) and the condensed
  traceback string are runtime introspection outside the shallow embedding
  and are omitted from the embedded records; no claim mentions them.
* External collaborators (cache, extractors, image handler, searchers) are
  parameters: a `Collaborators` record of `Except`-returning functions.
-/

namespace FactChecker

/-- A raised Python exception, abstracted to its class name and message. -/
structure PyError where
  etype : String
  msg : String
deriving DecidableEq

/-- Characters stripped by Python `str.strip()` / trimmed by the pydantic
`str_strip_whitespace` option (ASCII whitespace; embedded strings are ASCII). -/
def isSpaceChar (c : Char) : Bool :=
  c == ' ' || c == '\t' || c == '\n' || c == '\r' || c == '\x0b' || c == '\x0c'

/-- Python `str.strip()`. -/
def pyStrip (s : String) : String :=
  ⟨((s.data.dropWhile isSpaceChar).reverse.dropWhile isSpaceChar).reverse⟩

/-- Python `str.lower()` (ASCII case folding). -/
def pyLower (s : String) : String :=
  ⟨s.data.map Char.toLower⟩

/-- `as` begins with `ps` (character lists). -/
def startsWithChars : List Char → List Char → Bool
  | [], _ => true
  | _ :: _, [] => false
  | p :: ps, a :: as => p == a && startsWithChars ps as

/-- Python `pat in s` substring test. -/
def strContainsSub (s pat : String) : Bool :=
  (List.range (s.data.length + 1)).any fun i => startsWithChars pat.data (s.data.drop i)

/-- Python truthiness of an `Optional[str]`: `None` and `""` are falsy. -/
def optStrTruthy : Option String → Bool
  | none => false
  | some s => s != ""

/-- Python truthiness of an `Optional[bytes]`: `None` and `b""` are falsy. -/
def optBytesTruthy : Option (List Nat) → Bool
  | none => false
  | some b => !b.isEmpty

/-! ## `logging_config.py`: parameter sanitization (`_is_sensitive`,
`_sanitize_value`, `_extract_params`, lines 74-114) -/

/-- A Python runtime value as passed to a stage function: a string, a bytes
payload, an int, an object carrying `__dict__` (abstracted to its type name),
or a dict with string keys. -/
inductive PyVal where
  | str : String → PyVal
  | bytes : List Nat → PyVal
  | int : Int → PyVal
  | obj : String → PyVal
  | dict : List (String × PyVal) → PyVal

/-- `_is_sensitive` (logging_config.py lines 74-77): the key, lower-cased,
contains one of the sensitive keywords. -/
def is_sensitive (key : String) : Bool :=
  ["password", "token", "secret", "image_data", "api_key"].any fun kw =>
    strContainsSub (pyLower key) kw

/-- Python `str()` of the values a stage receives, used by the
`return str(value)` fallback of `_sanitize_value`. -/
def pyStrOf : PyVal → String
  | .str s => s
  | .bytes _ => "<bytes literal>"
  | .int n => toString n
  | .obj t => "<" ++ t ++ " object>"
  | .dict _ => "<dict literal>"

mutual

/-- `_sanitize_value` (logging_config.py lines 80-93): bytes become a
size-only marker, dicts are filtered by `_is_sensitive` and recursively
sanitized, objects with `__dict__` become `<TypeName>`, everything else is
stringified. -/
def sanitize_value : PyVal → PyVal
  | .bytes b => .str ("<bytes: " ++ toString b.length ++ " bytes>")
  | .dict es => .dict (sanitizeEntries es)
  | .obj t => .str ("<" ++ t ++ ">")
  | .str s => .str s
  | .int n => .str (toString n)

/-- The dict comprehension of `_sanitize_value`: drop sensitive keys,
sanitize the kept values, preserving order. -/
def sanitizeEntries : List (String × PyVal) → List (String × PyVal)
  | [] => []
  | (k, v) :: rest =>
    if is_sensitive k then sanitizeEntries rest
    else (k, sanitize_value v) :: sanitizeEntries rest

end

/-- Python `hasattr(x, "__dict__")` for the embedded values: only class
instances have an instance `__dict__`; builtins (str/bytes/int/dict) do not. -/
def hasDunderDict : PyVal → Bool
  | .obj _ => true
  | _ => false

/-- `_extract_params` (logging_config.py lines 96-114): drop a leading `self`,
name positional arguments `arg_i`, keep keyword names as-is, and sanitize
every value.  Note the source applies `_is_sensitive` only inside
the dict branch of `_sanitize_value`, never to the parameter names themselves. -/
def extract_params (args : List PyVal) (kwargs : List (String × PyVal)) :
    List (String × PyVal) :=
  let param_list :=
    match args with
    | a :: rest => if hasDunderDict a then rest else args
    | [] => []
  (param_list.enum.map fun p => ("arg_" ++ toString p.1, sanitize_value p.2))
    ++ kwargs.map fun kv => (kv.1, sanitize_value kv.2)

mutual

/-- No `bytes` payload occurs anywhere in a value. -/
def noBytes : PyVal → Bool
  | .bytes _ => false
  | .dict es => noBytesEntries es
  | _ => true

/-- `noBytes` over dict entries. -/
def noBytesEntries : List (String × PyVal) → Bool
  | [] => true
  | (_, v) :: rest => noBytes v && noBytesEntries rest

end

/-! ## `core/models.py`: data model -/

/-- A metadata value stored in the free-form metadata dict of a claim:
the source stores strings (error text, verification status) and ints
(`result_count`, `text_length`). -/
inductive MetaVal where
  | str : String → MetaVal
  | nat : Nat → MetaVal
deriving DecidableEq

/-- Python dict update `d[k] = v` on an insertion-ordered dict with unique
keys: overwrite in place if the key exists, else append. -/
def dictSet {β : Type} (d : List (String × β)) (k : String) (v : β) :
    List (String × β) :=
  if d.any (fun kv => kv.1 == k) then
    d.map fun kv => if kv.1 == k then (k, v) else kv
  else d ++ [(k, v)]

/-- Python dict lookup `d.get(k)`. -/
def dictGet {β : Type} (d : List (String × β)) (k : String) : Option β :=
  (d.find? (fun kv => kv.1 == k)).map (·.2)

/-- `ClaimQuestion` (models.py lines 34-40).  `question_type` ranges over the
`Literal` {who, when, where, what, how, why}; the model defines a field
`question_text` and in particular no field named `answer_text`. -/
structure ClaimQuestion where
  question_type : String
  question_text : String
  related_entity : Option String := none
  confidence : ℚ
deriving DecidableEq

/-- `ExtractedClaim` (models.py lines 43-52). -/
structure ExtractedClaim where
  claim_text : String
  extracted_from : String
  confidence : ℚ
  raw_input_type : String
  metadata : List (String × MetaVal) := []
  questions : List ClaimQuestion := []
  segments : List String := []
deriving DecidableEq

/-- `SearchResult` (models.py lines 55-64); the engagement/metadata dicts and
the timestamp are never read by the pipeline and are omitted. -/
structure SearchResult where
  platform : String
  content : String
  author : String
  url : String
deriving DecidableEq

/-- `VerdictEnum` (models.py lines 67-74). -/
inductive Verdict where
  | authentic
  | not_authentic
  | mixed
  | unclear
  | error
deriving DecidableEq

/-- `ErrorDetails` (models.py lines 77-86); the `input_parameters` snapshot
(settled separately through `extract_params`), `traceback_summary` and
`timestamp` are runtime introspection outside the embedding and are omitted
here. -/
structure ErrorDetails where
  failed_stage : String
  failed_function : String
  error_type : String
  error_message : String
deriving DecidableEq

/-- `Reference` (models.py lines 89-95).  Note the required field is named
`platform`. -/
structure Reference where
  title : String
  url : String
  snippet : String
  platform : String
deriving DecidableEq

/-- `Evidence` (models.py lines 98-104). -/
structure Evidence where
  claim_fragment : String
  finding : String
  supporting_results : List SearchResult
  confidence : ℚ
deriving DecidableEq

/-- `FactCheckResponse` (models.py lines 107-121), without the two
wall-clock fields. -/
structure FactCheckResponse where
  request_id : String
  claim_id : String
  verdict : Verdict
  confidence : ℚ
  evidence : Option (List Evidence) := none
  references : Option (List Reference) := none
  explanation : String
  search_queries_used : Option (List String) := none
  cached : Bool
  error_details : Option ErrorDetails := none
deriving DecidableEq

/-- `FactCheckRequest` (models.py lines 9-31), after successful validation. -/
structure FactCheckRequest where
  claim_text : Option String := none
  image_data : Option (List Nat) := none
  user_id : String
  source_platform : String := "whatsapp"
  request_id : Option String := none
deriving DecidableEq

/-- Constructing a `FactCheckRequest`: pydantic first strips whitespace from
every string field (`Config.str_strip_whitespace`, bytes are untouched), then
`at_least_one_required` (models.py lines 21-28) raises unless at least one of
`claim_text`/`image_data` is truthy. -/
def mkFactCheckRequest (claim_text : Option String) (image_data : Option (List Nat))
    (user_id : String) (source_platform : String) (request_id : Option String) :
    Except PyError FactCheckRequest :=
  let ct := claim_text.map pyStrip
  if !optStrTruthy ct && !optBytesTruthy image_data then
    .error ⟨"ValidationError",
      "At least one of claim_text or image_data must be provided"⟩
  else
    .ok { claim_text := ct, image_data := image_data, user_id := pyStrip user_id
          source_platform := pyStrip source_platform
          request_id := request_id.map pyStrip }

/-! ## `core/sources_config.py`: the Source Registry -/

/-- `SourceConfig` (sources_config.py lines 20-26). -/
structure SourceConfig where
  category : String
  class_name : String
  display_name : String
  sequence : Int
deriving DecidableEq

/-- `EXTERNAL_SOURCES` (sources_config.py lines 29-54), in insertion order. -/
def EXTERNAL_SOURCES : List (String × SourceConfig) :=
  [("twitter", ⟨"SOC", "TwitterSearcher", "Twitter", 1⟩),
   ("bluesky", ⟨"SOC", "BlueSkySearcher", "BlueSky", -2⟩),
   ("news", ⟨"NWS", "NewsSearcher", "News", -3⟩),
   ("gov", ⟨"GOV", "GovernmentSearcher", "Government", -4⟩)]

/-- Stable insertion of one keyed entry into a list sorted ascending by
`sequence` (a later entry goes after earlier entries of equal key). -/
def insertBySeq (x : String × SourceConfig) :
    List (String × SourceConfig) → List (String × SourceConfig)
  | [] => [x]
  | y :: ys => if x.2.sequence < y.2.sequence then x :: y :: ys
               else y :: insertBySeq x ys

/-- Stable sort by `sequence`, modelling the stable Python `sorted`. -/
def sortBySeq : List (String × SourceConfig) → List (String × SourceConfig)
  | [] => []
  | x :: xs => insertBySeq x (sortBySeq xs)

/-- `source_order` (factcheck_pipeline.py lines 261-264): registry keys
sorted ascending by their configured sequence number.  Note the registry
comment says negative sequences should be skipped, but this computation does
not filter them. -/
def source_order : List String :=
  (sortBySeq EXTERNAL_SOURCES).map Prod.fst

/-! ## `pipeline/factcheck_pipeline.py`: the orchestrator -/

/-- The external collaborators consumed by the pipeline, each modelled as a
function that may raise (`Except PyError`).  `search platform query params`
models `get_searcher(platform).search(query, params)` — a failure of either
the dynamic instantiation or the search itself surfaces as the same raised
exception inside the per-source `try` block. -/
structure Collaborators where
  cache_get : String → Except PyError (Option FactCheckResponse)
  cache_set : String → FactCheckResponse → Except PyError Unit
  text_extract : String → Except PyError (Option ExtractedClaim)
  detect_text_image : List Nat → Except PyError Bool
  detect_nested_image : List Nat → Except PyError Bool
  separate_nested_image : List Nat → Except PyError (List Nat × List Nat)
  extract_from_top_image : List Nat → Except PyError (Option ExtractedClaim)
  extract_from_inside_image : List Nat → Except PyError (Option ExtractedClaim)
  extract_from_text_image : List Nat → Except PyError (Option ExtractedClaim)
  search : String → String → List (String × String) → Except PyError (List SearchResult)

/-- A `PipelineExecutionError` (factcheck_pipeline.py lines 36-52) as raised
by the `log_stage` wrapper (logging_config.py lines 126-218). -/
structure StageError where
  stage_name : String
  function_name : String
  original : PyError
deriving DecidableEq

/-- The `log_stage` decorator, failure side: a stage body raising `e` is
re-raised as a `PipelineExecutionError` carrying the stage name, the
qualified function name and the original exception. -/
def wrapStage (stage fn : String) : Except PyError α → Except StageError α
  | .ok a => .ok a
  | .error e => .error ⟨stage, fn, e⟩

/-- `_check_cache` (lines 130-134): look the request up under the key
`request.claim_text or ""`. -/
def cacheLookupKey (req : FactCheckRequest) : String :=
  match req.claim_text with
  | none => ""
  | some s => s

/-- Body of the Cache Lookup stage. -/
def checkCacheStage (c : Collaborators) (req : FactCheckRequest) :
    Except PyError (Option FactCheckResponse) :=
  c.cache_get (cacheLookupKey req)

/-- `_create_error_claim` (lines 235-244). -/
def create_error_claim (error_message : String) : ExtractedClaim :=
  { claim_text := ""
    extracted_from := "hybrid"
    confidence := 0
    raw_input_type := "both"
    metadata := [("error", .str error_message)]
    questions := [] }

/-- `_extract_text_claim` (lines 167-173): call the text extractor; a raised
exception is logged and turned into `None`. -/
def extract_text_claim (c : Collaborators) (claim_text : String) :
    Option ExtractedClaim :=
  match c.text_extract claim_text with
  | .ok r => r
  | .error _ => none

/-- `_process_image_input` (lines 175-233).  The whole body sits in one
`try`: a collaborator exception returns the claims accumulated so far. -/
def process_image_input (c : Collaborators) (image_data : List Nat) :
    List ExtractedClaim :=
  match c.detect_text_image image_data with
  | .error _ => []
  | .ok false => [create_error_claim "Image does not contain readable text"]
  | .ok true =>
    match c.detect_nested_image image_data with
    | .error _ => []
    | .ok true =>
      match c.separate_nested_image image_data with
      | .error _ => []
      | .ok (top_image, inside_image) =>
        match c.extract_from_top_image top_image with
        | .error _ => []
        | .ok top_claim =>
          match c.extract_from_inside_image inside_image with
          | .error _ => top_claim.toList
          | .ok inside_claim => top_claim.toList ++ inside_claim.toList
    | .ok false =>
      match c.extract_from_text_image image_data with
      | .error _ => []
      | .ok image_claim => image_claim.toList

/-- What `_extract_claims` (lines 137-165) actually returns: the annotated
type is `List[ExtractedClaim]`, but the empty branch (line 165) returns the
bare `ExtractedClaim` produced by `_create_error_claim`, not a list. -/
inductive ExtractResult where
  | list : List ExtractedClaim → ExtractResult
  | single : ExtractedClaim → ExtractResult
deriving DecidableEq

/-- `_extract_claims` (lines 137-165). -/
def extractClaims (c : Collaborators) (req : FactCheckRequest) : ExtractResult :=
  let textClaims :=
    if optStrTruthy req.claim_text then
      (extract_text_claim c (req.claim_text.getD "")).toList
    else []
  let claims :=
    textClaims ++
      (if optBytesTruthy req.image_data then
        process_image_input c (req.image_data.getD [])
      else [])
  if claims.isEmpty then
    .single (create_error_claim "No claims extracted from input")
  else
    .list claims

/-- Body of the Claim Extraction stage (never raises: both collaborator
paths catch their own exceptions locally). -/
def extractClaimsStage (c : Collaborators) (req : FactCheckRequest) :
    Except PyError ExtractResult :=
  .ok (extractClaims c req)

/-- `_record_no_confidence` (lines 343-355). -/
def record_no_confidence (claim : ExtractedClaim) : ExtractedClaim :=
  { claim with
    confidence := 0
    metadata := dictSet claim.metadata "verification_status" (.str "no_evidence") }

/-- The per-question body of the boosting loop in
`_record_confidence_from_match` (lines 379-386): who/what/where components
get confidence 1.0, any other component below 0.5 is raised to 0.5. -/
def boostQuestion (q : ClaimQuestion) : ClaimQuestion :=
  if q.question_type == "who" || q.question_type == "what"
      || q.question_type == "where" then
    { q with confidence := 1 }
  else if q.confidence < 1/2 then
    { q with confidence := 1/2 }
  else q

/-- `_record_confidence_from_match` (lines 357-399). -/
def record_confidence_from_match (claim : ExtractedClaim)
    (search_results : List SearchResult) (match_found : Bool) : ExtractedClaim :=
  if !match_found || search_results.isEmpty then
    record_no_confidence claim
  else
    let qs := claim.questions.map boostQuestion
    let conf : ℚ :=
      if claim.questions.isEmpty then 1
      else (qs.map (·.confidence)).sum / qs.length
    { claim with
      questions := qs
      confidence := conf
      metadata :=
        dictSet
          (dictSet claim.metadata "verification_status" (.str "matched"))
          "result_count" (.nat search_results.length) }

/-- The per-claim source reordering (lines 289-297): iterate over a copy of
the order; the first platform whose lower-cased key equals the lower-cased
`where` text is removed and re-inserted at the front; then `break`. -/
def claimSourceOrder (order : List String) (whereText : String) : List String :=
  match order.find? (fun p => pyLower p == pyLower whereText) with
  | some p => p :: order.erase p
  | none => order

/-- The per-source search loop (lines 310-333): each source is queried in
order inside its own `try`; a raised exception is logged and skipped
(`continue`), results are accumulated.  `match_found` is hard-coded back to
`False` (lines 319-323), so the `break` is never taken and the loop returns
`match_found = False`. -/
def searchSources (search : String → String → List (String × String) →
    Except PyError (List SearchResult)) (query : String)
    (params : List (String × String)) :
    List String → List SearchResult → List SearchResult × Bool
  | [], acc => (acc, false)
  | platform :: rest, acc =>
    match search platform query params with
    | .ok results => searchSources search query params rest (acc ++ results)
    | .error _ => searchSources search query params rest acc

/-- The `AttributeError` raised when the pipeline reads the field
`answer_text`, which `ClaimQuestion` does not define. -/
def answerTextAttrError : PyError :=
  ⟨"AttributeError", "ClaimQuestion object has no attribute answer_text"⟩

/-- One iteration of the `_verify_claims` per-claim loop (lines 266-339).
If the `who` or the `what` question is missing, the claim is recorded as
unverifiable and no source is queried.  Otherwise the source evaluates
`where_a and where_a.answer_text` (line 290) when a `where` question exists
and `f"{who_a.answer_text} {what_a.answer_text}"` (line 301) when it does
not; in both cases the pydantic model raises `AttributeError` because the
field is named `question_text`, so the source reordering
(`claimSourceOrder`), the search loop (`searchSources`) and
`record_confidence_from_match` below this point are unreachable. -/
def verifyOne (_c : Collaborators) (claim : ExtractedClaim) :
    Except PyError (ExtractedClaim × List SearchResult) :=
  let who_a := claim.questions.find? fun q => q.question_type == "who"
  let what_a := claim.questions.find? fun q => q.question_type == "what"
  if who_a.isNone || what_a.isNone then
    .ok (record_no_confidence claim, [])
  else
    match claim.questions.find? fun q => q.question_type == "where" with
    | some _ => .error answerTextAttrError
    | none => .error answerTextAttrError

/-- The `for claim in claims` loop of `_verify_claims` over an actual list:
per-claim results are appended to the running result list; an exception on
one claim aborts the stage. -/
def verifyClaims (c : Collaborators) :
    List ExtractedClaim → Except PyError (List ExtractedClaim × List SearchResult)
  | [] => .ok ([], [])
  | claim :: rest =>
    match verifyOne c claim with
    | .error e => .error e
    | .ok (u, rs) =>
      match verifyClaims c rest with
      | .error e => .error e
      | .ok (us, rss) => .ok (u :: us, rs ++ rss)

/-- Body of the Claim Verification stage.  When `_extract_claims` returned a
bare `ExtractedClaim` (the empty-extraction branch), `for claim in claims`
iterates over the pydantic model, yielding `(field_name, value)` tuples, and
`claim.questions` on the first tuple raises `AttributeError`. -/
def verifyClaimsStage (c : Collaborators) :
    ExtractResult → Except PyError (ExtractResult × List SearchResult)
  | .single _ => .error ⟨"AttributeError", "tuple object has no attribute questions"⟩
  | .list cs =>
    match verifyClaims c cs with
    | .error e => .error e
    | .ok (us, rs) => .ok (.list us, rs)

/-- The keyword arguments of the `Reference(...)` call in
`_generate_response` (lines 424-429): note `external_source`, which is not a
field of `Reference`. -/
def referenceKwargs : List (String × String) :=
  [("title", "Mock Source"),
   ("url", "https://mock.source/article"),
   ("snippet", "This is a mock reference snippet"),
   ("external_source", "news")]

/-- Pydantic construction of `Reference` from keyword arguments: unknown
keys are ignored, and a missing required field (`platform`) raises a
`ValidationError`. -/
def mkReference (kwargs : List (String × String)) : Except PyError Reference :=
  match kwargs.find? (fun kv => kv.1 == "title"),
      kwargs.find? (fun kv => kv.1 == "url"),
      kwargs.find? (fun kv => kv.1 == "snippet"),
      kwargs.find? (fun kv => kv.1 == "platform") with
  | some t, some u, some s, some p => .ok ⟨t.2, u.2, s.2, p.2⟩
  | _, _, _, _ =>
    .error ⟨"ValidationError", "1 validation error for Reference: platform field required"⟩

/-- `_generate_response` (lines 401-445).  The parameter is annotated as one
`ExtractedClaim` but `check_claim` (line 101) passes the whole extraction
result: on a list, `claim.claim_text[:50]` (line 417) raises
`AttributeError`; on a bare claim the attribute access succeeds but the
`Reference` construction raises `ValidationError` (`external_source` instead
of the required `platform`). -/
def generateResponseStage (req : FactCheckRequest) (freshCid : String)
    (claims : ExtractResult) (results : List SearchResult) :
    Except PyError FactCheckResponse :=
  match claims with
  | .list _ => .error ⟨"AttributeError", "list object has no attribute claim_text"⟩
  | .single claim =>
    let evidence : Evidence :=
      { claim_fragment := ⟨claim.claim_text.data.take 50⟩
        finding := "Mock finding based on search results"
        supporting_results := results.take 2
        confidence := 3/4 }
    match mkReference referenceKwargs with
    | .error e => .error e
    | .ok reference =>
      .ok { request_id := req.request_id.getD freshCid
            claim_id := freshCid
            verdict := .mixed
            confidence := 3/4
            evidence := some [evidence]
            references := some [reference]
            explanation := "Mock explanation: This claim contains both accurate and inaccurate elements."
            search_queries_used := some ["mock query 1", "mock query 2"]
            cached := false
            error_details := none }

/-- `_cache_response` (lines 447-458): the response is stored under
`response.request_id`. -/
def cacheStorageKey (resp : FactCheckResponse) : String :=
  resp.request_id

/-- Body of the Cache Storage stage. -/
def cacheResponseStage (c : Collaborators) (resp : FactCheckResponse) :
    Except PyError Unit :=
  c.cache_set (cacheStorageKey resp) resp

/-- `_generate_error_response` (lines 460-514) for a wrapped stage error. -/
def generateErrorResponse (req : FactCheckRequest) (freshCid : String)
    (e : StageError) : FactCheckResponse :=
  let details : ErrorDetails :=
    { failed_stage := e.stage_name
      failed_function := e.function_name
      error_type := e.original.etype
      error_message := e.original.msg }
  { request_id := req.request_id.getD freshCid
    claim_id := freshCid
    verdict := .error
    confidence := 0
    evidence := none
    references := none
    explanation := "Fact-check failed at stage: " ++ details.failed_stage ++ ". "
      ++ details.error_message
    search_queries_used := none
    cached := false
    error_details := some details }

/-- Stages 1-5 of `check_claim` (lines 83-109), each wrapped by `log_stage`;
the first raising stage short-circuits with its `StageError`. -/
def runStages (c : Collaborators) (freshCid : String) (req : FactCheckRequest) :
    Except StageError FactCheckResponse :=
  match wrapStage "Cache Lookup" "FactCheckPipeline._check_cache"
      (checkCacheStage c req) with
  | .error e => .error e
  | .ok (some cachedResp) => .ok { cachedResp with cached := true }
  | .ok none =>
    match wrapStage "Claim Extraction" "FactCheckPipeline._extract_claims"
        (extractClaimsStage c req) with
    | .error e => .error e
    | .ok extracted =>
      match wrapStage "Claim Verification" "FactCheckPipeline._verify_claims"
          (verifyClaimsStage c extracted) with
      | .error e => .error e
      | .ok (verified, results) =>
        match wrapStage "Response Generation" "FactCheckPipeline._generate_response"
            (generateResponseStage req freshCid verified results) with
        | .error e => .error e
        | .ok resp =>
          match wrapStage "Cache Storage" "FactCheckPipeline._cache_response"
              (cacheResponseStage c resp) with
          | .error e => .error e
          | .ok _ => .ok resp

/-- Line 74: `request.request_id = request.request_id or str(uuid.uuid4())`. -/
def assignRequestId (freshRid : String) (req : FactCheckRequest) : FactCheckRequest :=
  { req with request_id := some (req.request_id.getD freshRid) }

/-- `check_claim` (lines 70-128): run the stages; any raised
`PipelineExecutionError` is converted into an ERROR-verdict response.  The
function is total by construction — the embedding returns a plain
`FactCheckResponse`, never an exception. -/
def check_claim (c : Collaborators) (freshRid freshCid : String)
    (req0 : FactCheckRequest) : FactCheckResponse :=
  let req := assignRequestId freshRid req0
  match runStages c freshCid req with
  | .ok resp => resp
  | .error e => generateErrorResponse req freshCid e

/-! ## `storage/cache.py`: the in-memory cache collaborator

`Cache.get`/`Cache.set` (lines 18-37) over the internal dict, with the TTL
expiry (wall-clock) out of scope: `get` returns the stored value for the
key, `set` overwrites or inserts. -/

/-- `Cache.get` (cache.py lines 18-31), expiry aside. -/
def cacheGet (store : List (String × FactCheckResponse)) (k : String) :
    Option FactCheckResponse :=
  dictGet store k

/-- `Cache.set` (cache.py lines 33-37). -/
def cacheSet (store : List (String × FactCheckResponse)) (k : String)
    (v : FactCheckResponse) : List (String × FactCheckResponse) :=
  dictSet store k v

/-! ## Helper lemmas about the Python dict model -/

theorem dictGet_dictSet_self {β : Type} (d : List (String × β)) (k : String) (v : β) :
    dictGet (dictSet d k v) k = some v := by
  unfold dictSet
  split
  case isTrue h =>
    induction d with
    | nil => simp at h
    | cons a rest ih =>
      by_cases ha : a.1 == k
      · simp [dictGet, List.find?, ha]
      · have h2 : rest.any (fun kv => kv.1 == k) := by
          simp only [List.any_cons, ha, Bool.false_or] at h
          exact h
        simpa [dictGet, List.find?, ha] using ih h2
  case isFalse h =>
    induction d with
    | nil => simp [dictGet, List.find?]
    | cons a rest ih =>
      have ha : (a.1 == k) = false := by
        by_contra hc
        exact h (by simp only [List.any_cons]; simp at hc; simp [hc])
      have h2 : ¬ rest.any (fun kv => kv.1 == k) = true := by
        intro hc
        exact h (by simp only [List.any_cons, hc, Bool.or_true])
      simpa [dictGet, List.find?, ha] using ih h2

theorem dictGet_replace_ne {β : Type} (k1 k2 : String) (v : β) (h : k1 ≠ k2) :
    ∀ d : List (String × β),
      dictGet (d.map fun kv => if kv.1 == k1 then (k1, v) else kv) k2 = dictGet d k2
  | [] => rfl
  | a :: rest => by
    have hk : (k1 == k2) = false := by simpa using h
    by_cases ha : a.1 == k1
    · have ha2 : (a.1 == k2) = false := by
        simp only [beq_iff_eq] at ha ⊢
        rw [ha]
        simpa using h
      simpa [dictGet, List.find?, ha, ha2, hk]
        using dictGet_replace_ne k1 k2 v h rest
    · have ha' : (a.1 == k1) = false := by simpa using ha
      by_cases hb : a.1 == k2
      · simp [dictGet, List.find?, ha', hb]
      · have hb' : (a.1 == k2) = false := by simpa using hb
        simpa [dictGet, List.find?, ha', hb']
          using dictGet_replace_ne k1 k2 v h rest

theorem dictGet_append_ne {β : Type} (k1 k2 : String) (v : β) (h : k1 ≠ k2) :
    ∀ d : List (String × β), dictGet (d ++ [(k1, v)]) k2 = dictGet d k2
  | [] => by
    have hk : (k1 == k2) = false := by simpa using h
    simp [dictGet, List.find?, hk]
  | a :: rest => by
    by_cases hb : a.1 == k2
    · simp [dictGet, List.find?, hb]
    · have hb' : (a.1 == k2) = false := by simpa using hb
      simpa [dictGet, List.find?, hb']
        using dictGet_append_ne k1 k2 v h rest

theorem dictGet_dictSet_ne {β : Type} (d : List (String × β)) (k1 k2 : String)
    (v : β) (h : k1 ≠ k2) : dictGet (dictSet d k1 v) k2 = dictGet d k2 := by
  unfold dictSet
  split
  · exact dictGet_replace_ne k1 k2 v h d
  · exact dictGet_append_ne k1 k2 v h d

mutual

/-- No dict anywhere inside the value carries a key matching the
sensitive-keyword list. -/
def noSensitiveKeys : PyVal → Bool
  | .dict es => noSensitiveEntries es
  | _ => true

/-- `noSensitiveKeys` over dict entries. -/
def noSensitiveEntries : List (String × PyVal) → Bool
  | [] => true
  | (k, v) :: rest => !is_sensitive k && noSensitiveKeys v && noSensitiveEntries rest

end

mutual

theorem noBytes_sanitize_value : (v : PyVal) → noBytes (sanitize_value v) = true
  | .str _ => rfl
  | .bytes _ => rfl
  | .int _ => rfl
  | .obj _ => rfl
  | .dict es => by
    simpa [sanitize_value, noBytes] using noBytesEntries_sanitizeEntries es

theorem noBytesEntries_sanitizeEntries :
    (es : List (String × PyVal)) → noBytesEntries (sanitizeEntries es) = true
  | [] => rfl
  | (k, v) :: rest => by
    cases h : is_sensitive k with
    | true =>
      simpa [sanitizeEntries, h] using noBytesEntries_sanitizeEntries rest
    | false =>
      simp [sanitizeEntries, h, noBytesEntries, noBytes_sanitize_value v,
        noBytesEntries_sanitizeEntries rest]

end

mutual

theorem noSensitiveKeys_sanitize_value :
    (v : PyVal) → noSensitiveKeys (sanitize_value v) = true
  | .str _ => rfl
  | .bytes _ => rfl
  | .int _ => rfl
  | .obj _ => rfl
  | .dict es => by
    simpa [sanitize_value, noSensitiveKeys] using noSensitiveEntries_sanitizeEntries es

theorem noSensitiveEntries_sanitizeEntries :
    (es : List (String × PyVal)) → noSensitiveEntries (sanitizeEntries es) = true
  | [] => rfl
  | (k, v) :: rest => by
    cases h : is_sensitive k with
    | true =>
      simpa [sanitizeEntries, h] using noSensitiveEntries_sanitizeEntries rest
    | false =>
      simp [sanitizeEntries, h, noSensitiveEntries, noSensitiveKeys_sanitize_value v,
        noSensitiveEntries_sanitizeEntries rest]

end

/-! ## Claim theorems -/

/-- Claim C8 fails as stated: a top-level keyword parameter whose NAME is on
the sensitive-keyword list is not redacted by `_extract_params` — the key
check `_is_sensitive` runs only inside the dict branch of `_sanitize_value`.
Here a keyword argument named `password` survives with its raw string value. -/
theorem extract_params_password_not_redacted :
    is_sensitive "password" = true
    ∧ extract_params [] [("password", PyVal.str "hunter2")]
        = [("password", PyVal.str "hunter2")] :=
  ⟨by decide, rfl⟩

/-- Claim C8 (amended): for every stage failure the sanitized parameter
snapshot contains no raw bytes payload anywhere — every bytes value becomes
the size-only marker string `<bytes: N bytes>` — dict values are sanitized
recursively with sensitive-named keys removed at every depth; top-level
keyword parameter names, however, are not themselves filtered (only their
values are sanitized). -/
theorem extract_params_sanitized :
    (∀ (args : List PyVal) (kwargs : List (String × PyVal)),
      ((extract_params args kwargs).map Prod.snd).all
        (fun v => noBytes v && noSensitiveKeys v) = true)
    ∧ (∀ b : List Nat, sanitize_value (PyVal.bytes b)
        = PyVal.str ("<bytes: " ++ toString b.length ++ " bytes>"))
    ∧ (∀ es, sanitize_value (PyVal.dict es) = PyVal.dict (sanitizeEntries es)) := by
  refine ⟨?_, fun _ => rfl, fun _ => rfl⟩
  intro args kwargs
  rw [List.all_eq_true]
  intro v hv
  rw [List.mem_map] at hv
  obtain ⟨kv, hkv, rfl⟩ := hv
  unfold extract_params at hkv
  rw [List.mem_append] at hkv
  have hx : ∃ x, kv.2 = sanitize_value x := by
    rcases hkv with hkv | hkv
    · rw [List.mem_map] at hkv
      obtain ⟨p, _, rfl⟩ := hkv
      exact ⟨p.2, rfl⟩
    · rw [List.mem_map] at hkv
      obtain ⟨q, _, rfl⟩ := hkv
      exact ⟨q.2, rfl⟩
  obtain ⟨x, hx⟩ := hx
  rw [hx]
  simp [noBytes_sanitize_value, noSensitiveKeys_sanitize_value]

/-- Claim C9: construction of a request whose trimmed text and image are both
empty or absent fails with a validation error; a request with at least one
non-empty input constructs successfully. -/
theorem request_validation (ct : Option String) (img : Option (List Nat))
    (uid sp : String) (rid : Option String) :
    (optStrTruthy (ct.map pyStrip) = false → optBytesTruthy img = false →
      ∃ m, mkFactCheckRequest ct img uid sp rid = .error m)
    ∧ ((optStrTruthy (ct.map pyStrip) = true ∨ optBytesTruthy img = true) →
      ∃ r, mkFactCheckRequest ct img uid sp rid = .ok r) := by
  constructor
  · intro h1 h2
    exact ⟨⟨"ValidationError",
      "At least one of claim_text or image_data must be provided"⟩,
      by simp [mkFactCheckRequest, h1, h2]⟩
  · intro h
    refine ⟨⟨ct.map pyStrip, img, pyStrip uid, pyStrip sp, rid.map pyStrip⟩, ?_⟩
    rcases h with h | h <;> simp [mkFactCheckRequest, h]

/-- Witness for C9 at concrete inputs: whitespace-only text with an empty
bytes payload is rejected; a real text constructs. -/
theorem request_validation_witness :
    (∃ m, mkFactCheckRequest (some "   ") (some []) "u1" "whatsapp" none
      = .error m)
    ∧ (∃ r, mkFactCheckRequest (some "The sky is blue") none "u1" "whatsapp" none
      = .ok r) :=
  ⟨(request_validation (some "   ") (some []) "u1" "whatsapp" none).1
      (by decide) (by decide),
   (request_validation (some "The sky is blue") none "u1" "whatsapp" none).2
      (Or.inl (by decide))⟩

/-- Claim C10: the Cache Lookup stage reads under `request.claim_text or ""`
(so every image-only request reads under `""`), while the Cache Storage
stage writes under `response.request_id`; hence whenever the stored key
differs from the lookup key of a later request, that lookup is unaffected by
the store. -/
theorem cache_key_asymmetry :
    (∀ (c : Collaborators) (req : FactCheckRequest),
      checkCacheStage c req = c.cache_get (cacheLookupKey req))
    ∧ (∀ (c : Collaborators) (resp : FactCheckResponse),
      cacheResponseStage c resp = c.cache_set (cacheStorageKey resp) resp)
    ∧ (∀ req : FactCheckRequest, req.claim_text = none → cacheLookupKey req = "")
    ∧ (∀ (store : List (String × FactCheckResponse)) (resp : FactCheckResponse)
        (req : FactCheckRequest), cacheStorageKey resp ≠ cacheLookupKey req →
        cacheGet (cacheSet store (cacheStorageKey resp) resp) (cacheLookupKey req)
          = cacheGet store (cacheLookupKey req)) := by
  refine ⟨fun _ _ => rfl, fun _ _ => rfl, ?_, ?_⟩
  · intro req h
    simp [cacheLookupKey, h]
  · intro store resp req h
    exact dictGet_dictSet_ne store _ _ resp h

/-- A sample stored response whose request id is `rid-1`. -/
def respC10 : FactCheckResponse :=
  { request_id := "rid-1"
    claim_id := "c"
    verdict := .mixed
    confidence := 1
    explanation := "e"
    cached := false }

/-- A sample later request for the claim text `The sky is blue`. -/
def reqC10 : FactCheckRequest :=
  { claim_text := some "The sky is blue", user_id := "u1" }

/-- Witness for C10: a response stored under request id `rid-1` is invisible
to a later lookup for the claim text `The sky is blue`. -/
theorem cache_key_asymmetry_witness :
    cacheStorageKey respC10 ≠ cacheLookupKey reqC10
    ∧ cacheGet (cacheSet [] (cacheStorageKey respC10) respC10)
        (cacheLookupKey reqC10)
      = cacheGet [] (cacheLookupKey reqC10) :=
  ⟨by decide, cache_key_asymmetry.2.2.2 [] respC10 reqC10 (by decide)⟩

/-- Claim C4: a claim whose question list lacks a `who` entry or lacks a
`what` entry is recorded with confidence exactly 0 and
`verification_status = no_evidence`, and no evidence source is consulted:
the outcome is identical for every collaborator instance, in particular for
any set of searchers, succeeding or failing. -/
theorem verify_missing_who_what (c : Collaborators) (claim : ExtractedClaim)
    (h : (claim.questions.find? fun q => q.question_type == "who") = none
       ∨ (claim.questions.find? fun q => q.question_type == "what") = none) :
    verifyOne c claim = .ok (record_no_confidence claim, [])
    ∧ (record_no_confidence claim).confidence = 0
    ∧ dictGet (record_no_confidence claim).metadata "verification_status"
        = some (.str "no_evidence")
    ∧ ∀ c2 : Collaborators, verifyOne c2 claim = verifyOne c claim := by
  have key : ∀ c0 : Collaborators,
      verifyOne c0 claim = .ok (record_no_confidence claim, []) := by
    intro c0
    unfold verifyOne
    rcases h with h | h <;> simp [h]
  refine ⟨key c, rfl, ?_, fun c2 => (key c2).trans (key c).symm⟩
  simp only [record_no_confidence]
  exact dictGet_dictSet_self claim.metadata _ _

/-- A claim with no structured questions at all (the C2 scenario claim has
none, so in particular no `who`). -/
def claimC4 : ExtractedClaim :=
  { claim_text := "The sky is blue"
    extracted_from := "text"
    confidence := 1
    raw_input_type := "text_only" }

/-- A collaborator instance with inert stubs. -/
def collabStub : Collaborators :=
  { cache_get := fun _ => .ok none
    cache_set := fun _ _ => .ok ()
    text_extract := fun _ => .ok none
    detect_text_image := fun _ => .ok false
    detect_nested_image := fun _ => .ok false
    separate_nested_image := fun _ => .ok ([], [])
    extract_from_top_image := fun _ => .ok none
    extract_from_inside_image := fun _ => .ok none
    extract_from_text_image := fun _ => .ok none
    search := fun _ _ _ => .ok [] }

/-- Witness for C4 at a concrete claim with no `who` question. -/
theorem verify_missing_who_what_witness :
    (claimC4.questions.find? fun q => q.question_type == "who") = none
    ∧ verifyOne collabStub claimC4 = .ok (record_no_confidence claimC4, [])
    ∧ (record_no_confidence claimC4).confidence = 0
    ∧ dictGet (record_no_confidence claimC4).metadata "verification_status"
        = some (.str "no_evidence") :=
  ⟨rfl,
   (verify_missing_who_what collabStub claimC4 (Or.inl rfl)).1,
   (verify_missing_who_what collabStub claimC4 (Or.inl rfl)).2.1,
   (verify_missing_who_what collabStub claimC4 (Or.inl rfl)).2.2.1⟩

theorem boostQuestion_spec (q : ClaimQuestion) :
    (boostQuestion q).question_type = q.question_type
    ∧ ((q.question_type = "who" ∨ q.question_type = "what"
        ∨ q.question_type = "where") → (boostQuestion q).confidence = 1)
    ∧ (¬(q.question_type = "who" ∨ q.question_type = "what"
        ∨ q.question_type = "where") →
      (boostQuestion q).confidence
        = if q.confidence < 1/2 then 1/2 else q.confidence) := by
  by_cases hb : (q.question_type == "who" || q.question_type == "what"
      || q.question_type == "where") = true
  · have hw : q.question_type = "who" ∨ q.question_type = "what"
        ∨ q.question_type = "where" := by
      simpa [or_assoc] using hb
    refine ⟨?_, fun _ => ?_, fun hnw => absurd hw hnw⟩
    · simp [boostQuestion, hb]
    · simp [boostQuestion, hb]
  · have hw : ¬(q.question_type = "who" ∨ q.question_type = "what"
        ∨ q.question_type = "where") := by
      simpa [or_assoc] using hb
    have hb' : (q.question_type == "who" || q.question_type == "what"
        || q.question_type == "where") = false := by
      simpa using hb
    refine ⟨?_, fun h => absurd h hw, fun _ => ?_⟩
    · simp only [boostQuestion, hb', Bool.false_eq_true, if_false]
      split <;> rfl
    · simp only [boostQuestion, hb', Bool.false_eq_true, if_false]
      split <;> rfl

/-- Claim C5: with a match found and a non-empty result list, confidence
recording boosts every who/what/where question to exactly 1.0, raises every
other question below 0.5 to 0.5, sets the overall confidence to the mean of
the (updated) question confidences — 1.0 when there are no questions — and
records `verification_status = matched` with `result_count` equal to the
number of accumulated results; with no match or an empty result list it
records confidence 0 and `verification_status = no_evidence`. -/
theorem record_match_confidence (claim : ExtractedClaim)
    (results : List SearchResult) (hres : results ≠ []) :
    (record_confidence_from_match claim results true).questions.length
        = claim.questions.length
    ∧ List.Forall₂ (fun q0 q1 =>
        q1.question_type = q0.question_type
        ∧ ((q0.question_type = "who" ∨ q0.question_type = "what"
            ∨ q0.question_type = "where") → q1.confidence = 1)
        ∧ (¬(q0.question_type = "who" ∨ q0.question_type = "what"
            ∨ q0.question_type = "where") →
          q1.confidence = if q0.confidence < 1/2 then 1/2 else q0.confidence))
        claim.questions (record_confidence_from_match claim results true).questions
    ∧ (record_confidence_from_match claim results true).confidence
        = (if claim.questions.isEmpty then (1 : ℚ)
          else ((record_confidence_from_match claim results true).questions.map
              (·.confidence)).sum
            / ((record_confidence_from_match claim results true).questions.length : ℚ))
    ∧ dictGet (record_confidence_from_match claim results true).metadata
        "verification_status" = some (.str "matched")
    ∧ dictGet (record_confidence_from_match claim results true).metadata
        "result_count" = some (.nat results.length)
    ∧ (∀ (claim2 : ExtractedClaim) (results2 : List SearchResult),
        record_confidence_from_match claim2 results2 false = record_no_confidence claim2)
    ∧ (∀ claim2 : ExtractedClaim,
        record_confidence_from_match claim2 [] true = record_no_confidence claim2)
    ∧ (∀ claim2 : ExtractedClaim, (record_no_confidence claim2).confidence = 0
        ∧ dictGet (record_no_confidence claim2).metadata "verification_status"
            = some (.str "no_evidence")) := by
  have hne : results.isEmpty = false := by
    cases results with
    | nil => exact absurd rfl hres
    | cons r rs => rfl
  have hmain : record_confidence_from_match claim results true
      = { claim with
          questions := claim.questions.map boostQuestion
          confidence :=
            if claim.questions.isEmpty then (1 : ℚ)
            else ((claim.questions.map boostQuestion).map (·.confidence)).sum
              / ((claim.questions.map boostQuestion).length : ℚ)
          metadata :=
            dictSet (dictSet claim.metadata "verification_status" (.str "matched"))
              "result_count" (.nat results.length) } := by
    simp [record_confidence_from_match, hne]
  refine ⟨?_, ?_, ?_, ?_, ?_, fun _ _ => rfl, fun _ => rfl, fun claim2 => ?_⟩
  · rw [hmain]
    exact List.length_map _ _
  · rw [hmain]
    simp only [List.forall₂_map_right_iff]
    rw [List.forall₂_same]
    intro q _
    exact boostQuestion_spec q
  · rw [hmain]
  · rw [hmain]
    simp only []
    rw [dictGet_dictSet_ne _ _ _ _ (by decide), dictGet_dictSet_self]
  · rw [hmain]
    simp only []
    rw [dictGet_dictSet_self]
  · exact ⟨rfl, dictGet_dictSet_self claim2.metadata _ _⟩

/-- A concrete claim for the C5 witness: a `who` question at 0.95 and a
`when` question at 0.2. -/
def claimC5 : ExtractedClaim :=
  { claim_text := "PMC initiated AI training"
    extracted_from := "text"
    confidence := 9/10
    raw_input_type := "text_only"
    questions :=
      [{ question_type := "who", question_text := "Who made this claim?",
         confidence := 19/20 },
       { question_type := "when", question_text := "When did this happen?",
         confidence := 1/5 }] }

/-- A concrete search result for the C5 witness. -/
def resC5 : SearchResult :=
  { platform := "twitter", content := "c", author := "a", url := "u" }

/-- Witness for C5: at the concrete claim the match path yields
`verification_status = matched`, `result_count = 1`, and overall confidence
(1 + 0.5)/2 = 0.75. -/
theorem record_match_confidence_witness :
    ([resC5] : List SearchResult) ≠ []
    ∧ dictGet (record_confidence_from_match claimC5 [resC5] true).metadata
        "verification_status" = some (.str "matched")
    ∧ dictGet (record_confidence_from_match claimC5 [resC5] true).metadata
        "result_count" = some (.nat 1)
    ∧ (record_confidence_from_match claimC5 [resC5] true).confidence = 3/4 :=
  ⟨List.cons_ne_nil _ _,
   (record_match_confidence claimC5 [resC5] (List.cons_ne_nil _ _)).2.2.2.1,
   (record_match_confidence claimC5 [resC5] (List.cons_ne_nil _ _)).2.2.2.2.1,
   by
    have hw : ¬(("when" = "who" ∨ "when" = "what") ∨ "when" = "where") := by
      decide
    simp [record_confidence_from_match, boostQuestion, claimC5, hw]
    norm_num⟩

theorem wrapStage_error_name {α : Type} (stage fn : String) (x : Except PyError α)
    (err : StageError) (h : wrapStage stage fn x = .error err) :
    err.stage_name = stage := by
  cases x with
  | ok a => exact Except.noConfusion h
  | error e0 =>
    cases h
    rfl

theorem runStages_error_stage (c : Collaborators) (cid : String)
    (req : FactCheckRequest) (e : StageError)
    (h : runStages c cid req = .error e) :
    e.stage_name = "Cache Lookup" ∨ e.stage_name = "Claim Extraction"
    ∨ e.stage_name = "Claim Verification" ∨ e.stage_name = "Response Generation"
    ∨ e.stage_name = "Cache Storage" := by
  unfold runStages at h
  split at h
  · rename_i e1 heq
    cases h
    exact Or.inl (wrapStage_error_name _ _ _ _ heq)
  · exact Except.noConfusion h
  · split at h
    · rename_i e1 heq
      cases h
      exact Or.inr (Or.inl (wrapStage_error_name _ _ _ _ heq))
    · rename_i extracted _
      split at h
      · rename_i e1 heq
        cases h
        exact Or.inr (Or.inr (Or.inl (wrapStage_error_name _ _ _ _ heq)))
      · rename_i pair _
        split at h
        · rename_i e1 heq
          cases h
          exact Or.inr (Or.inr (Or.inr (Or.inl (wrapStage_error_name _ _ _ _ heq))))
        · rename_i resp _
          split at h
          · rename_i e1 heq
            cases h
            exact Or.inr (Or.inr (Or.inr (Or.inr
              (wrapStage_error_name _ _ _ _ heq))))
          · exact Except.noConfusion h

/-- Claim C1: `check_claim` is total by construction (it returns a plain
`FactCheckResponse`, never an exception), and whenever a wrapped stage
raises, the returned response has verdict ERROR, confidence 0, null evidence
and references, and `error_details.failed_stage` equal to the name of the
stage that raised — one of the five wrapped stage names. -/
theorem check_claim_error_contract (c : Collaborators) (freshRid freshCid : String)
    (req : FactCheckRequest) (e : StageError)
    (h : runStages c freshCid (assignRequestId freshRid req) = .error e) :
    (check_claim c freshRid freshCid req).verdict = .error
    ∧ (check_claim c freshRid freshCid req).confidence = 0
    ∧ (check_claim c freshRid freshCid req).evidence = none
    ∧ (check_claim c freshRid freshCid req).references = none
    ∧ (check_claim c freshRid freshCid req).error_details
        = some ⟨e.stage_name, e.function_name, e.original.etype, e.original.msg⟩
    ∧ (e.stage_name = "Cache Lookup" ∨ e.stage_name = "Claim Extraction"
        ∨ e.stage_name = "Claim Verification"
        ∨ e.stage_name = "Response Generation"
        ∨ e.stage_name = "Cache Storage") := by
  have hc : check_claim c freshRid freshCid req
      = generateErrorResponse (assignRequestId freshRid req) freshCid e := by
    simp only [check_claim]
    rw [h]
  rw [hc]
  exact ⟨rfl, rfl, rfl, rfl, rfl, runStages_error_stage c freshCid _ e h⟩

/-- A collaborator set whose cache lookup raises. -/
def collabC1 : Collaborators :=
  { collabStub with cache_get := fun _ => .error ⟨"Exception", "Connection timeout"⟩ }

/-- The request used by the C1 witness. -/
def reqC1 : FactCheckRequest :=
  { claim_text := some "The sky is blue", user_id := "u1" }

/-- Witness for C1: a raising cache collaborator yields an ERROR response
whose `failed_stage` is `Cache Lookup`. -/
theorem check_claim_error_contract_witness :
    runStages collabC1 "cid-1" (assignRequestId "rid-1" reqC1)
      = .error ⟨"Cache Lookup", "FactCheckPipeline._check_cache",
          ⟨"Exception", "Connection timeout"⟩⟩
    ∧ (check_claim collabC1 "rid-1" "cid-1" reqC1).verdict = Verdict.error
    ∧ (check_claim collabC1 "rid-1" "cid-1" reqC1).error_details
        = some ⟨"Cache Lookup", "FactCheckPipeline._check_cache", "Exception",
            "Connection timeout"⟩ :=
  ⟨rfl,
   (check_claim_error_contract collabC1 "rid-1" "cid-1" reqC1 _ rfl).1,
   (check_claim_error_contract collabC1 "rid-1" "cid-1" reqC1 _ rfl).2.2.2.2.1⟩

/-- The single extracted claim of the C2 scenario: confidence 1.0 and no
structured questions. -/
def claimSky : ExtractedClaim :=
  { claim_text := "The sky is blue"
    extracted_from := "text"
    confidence := 1
    raw_input_type := "text_only" }

/-- Collaborators for the C2 scenario: cache miss, extraction returns
`claimSky`. -/
def collabC2 : Collaborators :=
  { collabStub with text_extract := fun _ => .ok (some claimSky) }

/-- The C2 scenario request. -/
def reqC2 : FactCheckRequest :=
  { claim_text := some "The sky is blue", user_id := "u1" }

/-- Claim C2 fails on the code: the Verification Engine does set the
question-less claim to confidence 0 with `verification_status = no_evidence`
(first three conjuncts), but the final response has verdict ERROR, because
`_generate_response` raises — it dereferences `claim.claim_text` on the
claims list and, even for a single claim, builds `Reference` with
`external_source` instead of the required `platform` field — so the run
fails at the Response Generation stage. -/
theorem scenario_sky_response_is_error :
    verifyClaimsStage collabC2 (ExtractResult.list [claimSky])
      = .ok (.list [record_no_confidence claimSky], [])
    ∧ (record_no_confidence claimSky).confidence = 0
    ∧ dictGet (record_no_confidence claimSky).metadata "verification_status"
        = some (.str "no_evidence")
    ∧ (check_claim collabC2 "rid-2" "cid-2" reqC2).verdict = Verdict.error
    ∧ ((check_claim collabC2 "rid-2" "cid-2" reqC2).error_details.map
        (·.failed_stage)) = some "Response Generation"
    ∧ (∀ results : List SearchResult,
        mkReference referenceKwargs = .error
          ⟨"ValidationError",
            "1 validation error for Reference: platform field required"⟩
        ∧ generateResponseStage reqC2 "cid-2" (.single claimSky) results
            = .error ⟨"ValidationError",
              "1 validation error for Reference: platform field required"⟩) :=
  ⟨rfl, rfl, rfl, rfl, rfl, fun _ => ⟨rfl, rfl⟩⟩

/-- Collaborators for C3: the text extractor raises, nothing else applies. -/
def collabC3 : Collaborators :=
  { collabStub with text_extract := fun _ => .error ⟨"ValueError", "LLM failure"⟩ }

/-- The C3 failing request: text only, whose extraction fails softly. -/
def reqC3 : FactCheckRequest :=
  { claim_text := some "x", user_id := "u1" }

/-- Claim C3 fails on the code: when nothing could be extracted,
`_extract_claims` returns the bare error-sentinel `ExtractedClaim` — with
confidence 0 and metadata `error` set — instead of a single-element list
(its own return annotation says `List[ExtractedClaim]`), and the subsequent
verification stage then fails iterating over the pydantic model. -/
theorem extraction_empty_returns_bare_claim :
    extractClaims collabC3 reqC3
      = ExtractResult.single (create_error_claim "No claims extracted from input")
    ∧ (create_error_claim "No claims extracted from input").confidence = 0
    ∧ dictGet (create_error_claim "No claims extracted from input").metadata
        "error" = some (.str "No claims extracted from input")
    ∧ (∀ cs : List ExtractedClaim,
        extractClaims collabC3 reqC3 ≠ ExtractResult.list cs)
    ∧ ((check_claim collabC3 "rid-3" "cid-3" reqC3).error_details.map
        (·.failed_stage)) = some "Claim Verification" :=
  ⟨rfl, rfl, rfl, fun _ h => ExtractResult.noConfusion h, rfl⟩

/-- A claim with who, what and where questions (the C6 failing input). -/
def claimC6 : ExtractedClaim :=
  { claim_text := "PMC initiated AI training at SP College"
    extracted_from := "text"
    confidence := 9/10
    raw_input_type := "text_only"
    questions :=
      [⟨"who", "Who made this claim?", none, 19/20⟩,
       ⟨"what", "What is claimed?", none, 9/10⟩,
       ⟨"where", "Where did it happen?", none, 4/5⟩] }

/-- Claim C6 fails on the code: for every collaborator set, verifying a
claim that has who/what/where questions raises `AttributeError` at
`where_a.answer_text` (the model field is `question_text`), so the matching
source is never moved to the front and never queried.  The translated
reorder logic itself (`claimSourceOrder`, lines 289-297) would move the
case-insensitively matching source to the front of the per-claim order
while `source_order` stays fixed — but it is unreachable. -/
theorem where_reorder_unreachable :
    (∀ c2 : Collaborators, verifyOne c2 claimC6 = .error answerTextAttrError)
    ∧ claimSourceOrder source_order "Twitter" = ["twitter", "gov", "news", "bluesky"]
    ∧ source_order = ["gov", "news", "bluesky", "twitter"] :=
  ⟨fun _ => rfl, rfl, rfl⟩

/-- A claim with who and what questions only (the C7 failing input). -/
def claimC7 : ExtractedClaim :=
  { claim_text := "PMC initiated AI training"
    extracted_from := "text"
    confidence := 9/10
    raw_input_type := "text_only"
    questions :=
      [⟨"who", "Who made this claim?", none, 19/20⟩,
       ⟨"what", "What is claimed?", none, 9/10⟩] }

/-- A search collaborator whose `gov` source raises and whose other sources
each return one result. -/
def searchFailGov : String → String → List (String × String) →
    Except PyError (List SearchResult) :=
  fun platform _ _ =>
    if platform == "gov" then .error ⟨"ConnectionError", "gov source unavailable"⟩
    else .ok [⟨platform, "content", "author", "url"⟩]

/-- Claim C7 fails on the code: the per-source try/except loop (translated
as `searchSources`) would indeed skip a failing source and keep the other
results — second conjunct — but no claim ever reaches it: building the
search query raises `AttributeError` (`who_a.answer_text`, line 301) for
every claim that has who and what questions, aborting the whole verification
stage, for every collaborator set. -/
theorem per_source_failure_unreachable :
    (∀ c2 : Collaborators, verifyOne c2 claimC7 = .error answerTextAttrError)
    ∧ searchSources searchFailGov "q" [] source_order []
        = ([⟨"news", "content", "author", "url"⟩,
            ⟨"bluesky", "content", "author", "url"⟩,
            ⟨"twitter", "content", "author", "url"⟩], false) :=
  ⟨fun _ => rfl, rfl⟩

end FactChecker
